import Mathlib

/-!
Verification of the metrics instrumentation layer of the e-com-site
repository (`src/monitor/dashboard/product-service/app/metrics.py` and
`src/monitor/dashboard/user-service/app/metrics.py`).

The Python modules define Prometheus-style metric objects (counters,
gauges, histograms keyed by label-value tuples), decorator-style wrappers
that measure an asynchronous operation and update the metrics, and thin
business-event recorder functions.  We embed them shallowly: a wrapped
operation is represented by its outcome (`Except PyExc PyValue`) together
with the elapsed duration, and each wrapper becomes a pure function from
the outcome, the duration and the metrics state to the returned outcome
paired with the updated metrics state.
-/

/-- A label-value combination: the concrete string values, in the order of
the metric definition's label names. -/
abbrev Labels := List String

/-- Read the value stored for key `ls` in an association list, with
default `d` for an absent key (mirrors lazy instance creation: an
instance never observed reads as the fresh default). -/
def getA (d : α) : List (Labels × α) → Labels → α
  | [], _ => d
  | (k, v) :: rest, ls => if k = ls then v else getA d rest ls

/-- Update the value stored for key `ls` by `f`, creating the entry from
the default `d` if it is absent (create-on-first-use). -/
def updA (d : α) : List (Labels × α) → Labels → (α → α) → List (Labels × α)
  | [], ls, f => [(ls, f d)]
  | (k, v) :: rest, ls, f =>
    if k = ls then (k, f v) :: rest else (k, v) :: updA d rest ls f

theorem getA_updA (d : α) (m : List (Labels × α)) (ls ls' : Labels) (f : α → α) :
    getA d (updA d m ls f) ls' =
      if ls' = ls then f (getA d m ls) else getA d m ls' := by
  induction m with
  | nil =>
    by_cases h : ls' = ls
    · simp [updA, getA, h]
    · simp [updA, getA, h, Ne.symm h]
  | cons kv rest ih =>
    obtain ⟨k, v⟩ := kv
    simp only [updA]
    by_cases hk : k = ls <;> by_cases h' : ls' = ls <;> by_cases h'' : k = ls' <;>
      simp_all [getA]

/-- Sum of `g` over all entries of the map. -/
def sumA (g : α → Int) : List (Labels × α) → Int
  | [] => 0
  | (_, v) :: rest => g v + sumA g rest

/-- Sum of `g` over the entries whose key satisfies `p`. -/
def sumFilterA (p : Labels → Bool) (g : α → Int) : List (Labels × α) → Int
  | [] => 0
  | (k, v) :: rest =>
    (if p k then g v else 0) + sumFilterA p g rest

theorem sumA_updA (d : α) (m : List (Labels × α)) (ls : Labels) (f : α → α)
    (g : α → Int) (c : Int)
    (hf : ∀ a, g (f a) = g a + c) (hd : g d = 0) :
    sumA g (updA d m ls f) = sumA g m + c := by
  induction m with
  | nil => simp [updA, sumA, hf, hd]
  | cons kv rest ih =>
    obtain ⟨k, v⟩ := kv
    simp only [updA]
    by_cases hk : k = ls
    · simp [hk, sumA, hf]; ring
    · simp [hk, sumA, ih]; ring

theorem sumFilterA_updA (d : α) (m : List (Labels × α)) (ls : Labels) (f : α → α)
    (p : Labels → Bool) (g : α → Int) (c : Int)
    (hf : ∀ a, g (f a) = g a + c) (hd : g d = 0) :
    sumFilterA p g (updA d m ls f) =
      sumFilterA p g m + (if p ls then c else 0) := by
  induction m with
  | nil =>
    by_cases hp : p ls <;> simp [updA, sumFilterA, hp, hf, hd]
  | cons kv rest ih =>
    obtain ⟨k, v⟩ := kv
    simp only [updA]
    by_cases hk : k = ls
    · subst hk
      by_cases hp : p k <;> simp [sumFilterA, hp, hf] <;> try ring
    · simp only [if_neg hk, sumFilterA, ih]
      ring

/-! ## Python values and outcomes as the metrics layer observes them -/

/-- A Python value as far as the wrappers inspect it: they only test
`result is not None`, read `response.status_code` when the attribute
exists (`hasattr`), or pass the value through untouched.  `response`
carries a `status_code` attribute; every other constructor has none. -/
inductive PyValue where
  | none
  | str (s : String)
  | int (n : Int)
  | list (xs : List PyValue)
  | response (status_code : Nat) (body : String)
  | obj (clsname : String)

/-- `response.status_code` when `hasattr(response, 'status_code')`,
absent otherwise. -/
def PyValue.statusCode : PyValue → Option Nat
  | .response sc _ => Option.some sc
  | _ => Option.none

/-- The `result is not None` test, negated: `true` exactly on `None`. -/
def PyValue.isNone : PyValue → Bool
  | .none => true
  | _ => false

/-- A raised Python exception, opaque to the metrics layer. -/
structure PyExc where
  msg : String
deriving DecidableEq

/-- Outcome of awaiting a wrapped asynchronous operation: a returned
value or a raised exception. -/
abbrev Outcome := Except PyExc PyValue

/-! ## Metric instances

`prometheus_client`'s `Counter`, `Gauge` and `Histogram` keep one stateful
accumulator per distinct label-value combination, created lazily on first
use.  We represent each metric object by an association list from label
values to the accumulator. -/

/-- A labeled Prometheus counter; an instance never incremented reads 0. -/
structure Counter where
  values : List (Labels × Int) := []
deriving DecidableEq

def Counter.get (c : Counter) (ls : Labels) : Int :=
  getA 0 c.values ls

/-- `counter.labels(...).inc()`: increment by one, creating the instance
at 0 on first use. -/
def Counter.inc (c : Counter) (ls : Labels) : Counter :=
  ⟨updA 0 c.values ls (· + 1)⟩

/-- Modelled from the spec: `prometheus_client.Counter.inc(amount)` is not
under src/; the spec states `increment(amount = 1)` fails if `amount < 0`. -/
def Counter.incBy (c : Counter) (ls : Labels) (amount : Int) : Option Counter :=
  if amount < 0 then Option.none
  else Option.some ⟨updA 0 c.values ls (· + amount)⟩

/-- A labeled Prometheus gauge, last-write-wins. -/
structure Gauge where
  values : List (Labels × Rat) := []
deriving DecidableEq

def Gauge.get (g : Gauge) (ls : Labels) : Rat :=
  getA 0 g.values ls

def Gauge.set (g : Gauge) (ls : Labels) (v : Rat) : Gauge :=
  ⟨updA 0 g.values ls (fun _ => v)⟩

/-- Accumulator of one histogram instance: one cumulative counter per
configured bucket boundary, plus the running sum and observation count. -/
structure HistoData where
  bucketCounts : List Nat
  sum : Rat
  count : Nat
deriving DecidableEq

/-- A fresh histogram instance: all buckets at 0, sum 0, count 0. -/
def HistoData.init (buckets : List Rat) : HistoData :=
  ⟨buckets.map (fun _ => 0), 0, 0⟩

/-- Modelled from the spec: `prometheus_client.Histogram.observe` is not
under src/; the spec states `observe(value)` increments `count`, adds to
`sum`, and increments every bucket whose upper bound is `>= value`
(cumulative bucket semantics). -/
def HistoData.observe (h : HistoData) (buckets : List Rat) (v : Rat) : HistoData :=
  ⟨List.zipWith (fun b c => if v ≤ b then c + 1 else c) buckets h.bucketCounts,
   h.sum + v, h.count + 1⟩

/-- A labeled Prometheus histogram with its configured bucket boundaries. -/
structure Histogram where
  buckets : List Rat
  values : List (Labels × HistoData) := []
deriving DecidableEq

def Histogram.get (h : Histogram) (ls : Labels) : HistoData :=
  getA (HistoData.init h.buckets) h.values ls

/-- `histogram.labels(...).observe(v)`. -/
def Histogram.observe (h : Histogram) (ls : Labels) (v : Rat) : Histogram :=
  { h with
    values := updA (HistoData.init h.buckets) h.values ls
      (fun hd => hd.observe h.buckets v) }

/-- `status_code` as computed by `track_endpoint_metrics`: initialized to
200, overwritten by `response.status_code` when the attribute exists, and
set to 500 when the wrapped call raises. -/
def endpointStatus (op : Outcome) : Nat :=
  match op with
  | .ok v => (v.statusCode).getD 200
  | .error _ => 500

/-! ## Product service (`src/monitor/dashboard/product-service/app/metrics.py`) -/

namespace ProductService

/-- Bucket boundaries of `http_request_duration_seconds`:
`[0.01, 0.05, 0.1, 0.5, 1.0, 2.0, 5.0, 10.0]`. -/
def httpBuckets : List Rat := [1/100, 1/20, 1/10, 1/2, 1, 2, 5, 10]

/-- Bucket boundaries of `database_query_duration_seconds`:
`[0.001, 0.005, 0.01, 0.05, 0.1, 0.5, 1.0]`. -/
def dbBuckets : List Rat := [1/1000, 1/200, 1/100, 1/20, 1/10, 1/2, 1]

/-- Bucket boundaries of `redis_operation_duration_seconds`:
`[0.001, 0.005, 0.01, 0.05, 0.1]`. -/
def redisBuckets : List Rat := [1/1000, 1/200, 1/100, 1/20, 1/10]

/-- The module-level metric objects of the product service, one field per
`Counter`/`Gauge`/`Histogram` defined in the file, in registration order.
The default value of each field is the state at process start. -/
structure Metrics where
  product_views_total : Counter := {}
  products_added_to_cart_total : Counter := {}
  product_search_queries_total : Counter := {}
  product_inventory_level : Gauge := {}
  product_current_price : Gauge := {}
  http_requests_total : Counter := {}
  http_request_duration_seconds : Histogram := { buckets := httpBuckets }
  database_query_duration_seconds : Histogram := { buckets := dbBuckets }
  database_connections_active : Gauge := {}
  database_connections_idle : Gauge := {}
  database_connections_max : Gauge := {}
  redis_cache_hits_total : Counter := {}
  redis_cache_misses_total : Counter := {}
  redis_operations_total : Counter := {}
  redis_operation_duration_seconds : Histogram := { buckets := redisBuckets }
deriving DecidableEq

/-- Module state at import time: every metric empty. -/
def initial : Metrics := {}

/-- `track_endpoint_metrics(endpoint_name)` applied to one call of the
wrapped endpoint.  `op` is the outcome of `await func(*args, **kwargs)`
and `duration` the elapsed wall-clock time; the `finally` block always
increments `http_requests_total` (method hardcoded to `'GET'`) and
observes `http_request_duration_seconds`, then the outcome — original
return value or re-raised exception — reaches the caller. -/
def track_endpoint_metrics (endpoint_name : String) (op : Outcome)
    (duration : Rat) (s : Metrics) : Outcome × Metrics :=
  let status_code := endpointStatus op
  (op,
    { s with
      http_requests_total :=
        s.http_requests_total.inc ["GET", endpoint_name, toString status_code],
      http_request_duration_seconds :=
        s.http_request_duration_seconds.observe ["GET", endpoint_name] duration })

/-- `track_database_query(operation, table)` applied to one call: the
`finally` block observes `database_query_duration_seconds` and the
outcome passes through unchanged. -/
def track_database_query (operation table : String) (op : Outcome)
    (duration : Rat) (s : Metrics) : Outcome × Metrics :=
  (op,
    { s with
      database_query_duration_seconds :=
        s.database_query_duration_seconds.observe [operation, table] duration })

/-- `track_cache_operation(operation, key_type)` applied to one call: on
normal completion of a `'get'`, a non-`None` result increments
`redis_cache_hits_total` and a `None` result `redis_cache_misses_total`
(this step is inside the `try`, so it is skipped when the call raises);
the `finally` block then increments `redis_operations_total` and observes
`redis_operation_duration_seconds`, and the outcome passes through. -/
def track_cache_operation (operation key_type : String) (op : Outcome)
    (duration : Rat) (s : Metrics) : Outcome × Metrics :=
  let s1 :=
    match op with
    | .ok result =>
      if operation = "get" then
        if result.isNone then
          { s with redis_cache_misses_total :=
              s.redis_cache_misses_total.inc [key_type] }
        else
          { s with redis_cache_hits_total :=
              s.redis_cache_hits_total.inc [key_type] }
      else s
    | .error _ => s
  (op,
    { s1 with
      redis_operations_total := s1.redis_operations_total.inc [operation],
      redis_operation_duration_seconds :=
        s1.redis_operation_duration_seconds.observe [operation] duration })

/-- `track_product_view(product_id, product_name, category)`. -/
def track_product_view (product_id product_name category : String)
    (s : Metrics) : Metrics :=
  { s with product_views_total :=
      s.product_views_total.inc [product_id, product_name, category] }

/-- `track_add_to_cart(product_id, product_name)`. -/
def track_add_to_cart (product_id product_name : String)
    (s : Metrics) : Metrics :=
  { s with products_added_to_cart_total :=
      s.products_added_to_cart_total.inc [product_id, product_name] }

/-- `track_product_search(search_type)`. -/
def track_product_search (search_type : String) (s : Metrics) : Metrics :=
  { s with product_search_queries_total :=
      s.product_search_queries_total.inc [search_type] }

/-- `update_product_inventory(product_id, product_name, quantity)`. -/
def update_product_inventory (product_id product_name : String)
    (quantity : Int) (s : Metrics) : Metrics :=
  { s with product_inventory_level :=
      s.product_inventory_level.set [product_id, product_name] (quantity : Rat) }

/-- `update_product_price(product_id, product_name, price, currency)`. -/
def update_product_price (product_id product_name : String) (price : Rat)
    (currency : String) (s : Metrics) : Metrics :=
  { s with product_current_price :=
      s.product_current_price.set [product_id, product_name, currency] price }

/-- `update_db_connection_stats(active, idle, max_conn)`. -/
def update_db_connection_stats (active idle max_conn : Int)
    (s : Metrics) : Metrics :=
  { s with
    database_connections_active :=
      s.database_connections_active.set [] (active : Rat),
    database_connections_idle :=
      s.database_connections_idle.set [] (idle : Rat),
    database_connections_max :=
      s.database_connections_max.set [] (max_conn : Rat) }

end ProductService

/-! ## User service (`src/monitor/dashboard/user-service/app/metrics.py`) -/

namespace UserService

/-- Bucket boundaries of `http_request_duration_seconds`:
`[0.01, 0.05, 0.1, 0.5, 1.0, 2.0, 5.0, 10.0]`. -/
def httpBuckets : List Rat := [1/100, 1/20, 1/10, 1/2, 1, 2, 5, 10]

/-- Bucket boundaries of `auth_operation_duration_seconds`:
`[0.01, 0.05, 0.1, 0.5, 1.0]`. -/
def authBuckets : List Rat := [1/100, 1/20, 1/10, 1/2, 1]

/-- Bucket boundaries of `database_query_duration_seconds`:
`[0.001, 0.005, 0.01, 0.05, 0.1, 0.5, 1.0]`. -/
def dbBuckets : List Rat := [1/1000, 1/200, 1/100, 1/20, 1/10, 1/2, 1]

/-- The module-level metric objects of the user service, one field per
`Counter`/`Gauge`/`Histogram` defined in the file, in registration order. -/
structure Metrics where
  user_registrations_total : Counter := {}
  user_login_attempts_total : Counter := {}
  user_active_sessions : Gauge := {}
  user_sessions_created_total : Counter := {}
  user_password_reset_requests_total : Counter := {}
  user_profile_updates_total : Counter := {}
  user_email_verifications_total : Counter := {}
  user_account_actions_total : Counter := {}
  http_requests_total : Counter := {}
  http_request_duration_seconds : Histogram := { buckets := httpBuckets }
  jwt_tokens_issued_total : Counter := {}
  jwt_tokens_validated_total : Counter := {}
  jwt_tokens_revoked_total : Counter := {}
  auth_operation_duration_seconds : Histogram := { buckets := authBuckets }
  database_query_duration_seconds : Histogram := { buckets := dbBuckets }
  database_connections_active : Gauge := {}
  database_connections_idle : Gauge := {}
  redis_cache_hits_total : Counter := {}
  redis_cache_misses_total : Counter := {}
  redis_operations_total : Counter := {}
  failed_login_attempts_by_ip : Counter := {}
  suspicious_activities_total : Counter := {}
  rate_limit_exceeded_total : Counter := {}
deriving DecidableEq

/-- Module state at import time: every metric empty. -/
def initial : Metrics := {}

/-- `track_endpoint_metrics(endpoint_name)` of the user service applied
to one call: identical to the product-service wrapper except that the
`finally` block hardcodes the method label to `'POST'`. -/
def track_endpoint_metrics (endpoint_name : String) (op : Outcome)
    (duration : Rat) (s : Metrics) : Outcome × Metrics :=
  let status_code := endpointStatus op
  (op,
    { s with
      http_requests_total :=
        s.http_requests_total.inc ["POST", endpoint_name, toString status_code],
      http_request_duration_seconds :=
        s.http_request_duration_seconds.observe ["POST", endpoint_name] duration })

/-- `track_auth_operation(operation)` applied to one call: the `finally`
block observes `auth_operation_duration_seconds` and the outcome passes
through unchanged. -/
def track_auth_operation (operation : String) (op : Outcome)
    (duration : Rat) (s : Metrics) : Outcome × Metrics :=
  (op,
    { s with
      auth_operation_duration_seconds :=
        s.auth_operation_duration_seconds.observe [operation] duration })

/-- `track_user_registration(source)`. -/
def track_user_registration (source : String) (s : Metrics) : Metrics :=
  { s with user_registrations_total := s.user_registrations_total.inc [source] }

/-- `track_login_attempt(success, method)`: the status label is
`'success'` when `success` is true, `'failed'` otherwise. -/
def track_login_attempt (success : Bool) (method : String)
    (s : Metrics) : Metrics :=
  let status := if success then "success" else "failed"
  { s with user_login_attempts_total :=
      s.user_login_attempts_total.inc [status, method] }

/-- `track_failed_login_by_ip(ip_address)`. -/
def track_failed_login_by_ip (ip_address : String) (s : Metrics) : Metrics :=
  { s with failed_login_attempts_by_ip :=
      s.failed_login_attempts_by_ip.inc [ip_address] }

/-- `track_session_creation()` — the counter has no labels. -/
def track_session_creation (s : Metrics) : Metrics :=
  { s with user_sessions_created_total := s.user_sessions_created_total.inc [] }

/-- `update_active_sessions(count)`. -/
def update_active_sessions (c : Int) (s : Metrics) : Metrics :=
  { s with user_active_sessions := s.user_active_sessions.set [] (c : Rat) }

/-- `track_password_reset(status)`. -/
def track_password_reset (status : String) (s : Metrics) : Metrics :=
  { s with user_password_reset_requests_total :=
      s.user_password_reset_requests_total.inc [status] }

/-- `track_profile_update(field)`. -/
def track_profile_update (field : String) (s : Metrics) : Metrics :=
  { s with user_profile_updates_total :=
      s.user_profile_updates_total.inc [field] }

/-- `track_email_verification(status)`. -/
def track_email_verification (status : String) (s : Metrics) : Metrics :=
  { s with user_email_verifications_total :=
      s.user_email_verifications_total.inc [status] }

/-- `track_account_action(action)`. -/
def track_account_action (action : String) (s : Metrics) : Metrics :=
  { s with user_account_actions_total :=
      s.user_account_actions_total.inc [action] }

/-- `track_jwt_issued(token_type)`. -/
def track_jwt_issued (token_type : String) (s : Metrics) : Metrics :=
  { s with jwt_tokens_issued_total := s.jwt_tokens_issued_total.inc [token_type] }

/-- `track_jwt_validated(status)`. -/
def track_jwt_validated (status : String) (s : Metrics) : Metrics :=
  { s with jwt_tokens_validated_total :=
      s.jwt_tokens_validated_total.inc [status] }

/-- `track_jwt_revoked(reason)`. -/
def track_jwt_revoked (reason : String) (s : Metrics) : Metrics :=
  { s with jwt_tokens_revoked_total := s.jwt_tokens_revoked_total.inc [reason] }

/-- `track_suspicious_activity(activity_type)`. -/
def track_suspicious_activity (activity_type : String) (s : Metrics) : Metrics :=
  { s with suspicious_activities_total :=
      s.suspicious_activities_total.inc [activity_type] }

/-- `track_rate_limit_exceeded(endpoint, user_id)`. -/
def track_rate_limit_exceeded (endpoint user_id : String)
    (s : Metrics) : Metrics :=
  { s with rate_limit_exceeded_total :=
      s.rate_limit_exceeded_total.inc [endpoint, user_id] }

end UserService

/-! ## Exposition serialization (`get_metrics` / `generate_latest`) -/

/-- Comma-joined label values of one instance's data line. -/
def renderLabels (ls : Labels) : String :=
  String.intercalate "," ls

/-- Modelled from the spec: `prometheus_client.generate_latest` is not
under src/.  Per the spec the serializer emits, per metric, `HELP` and
`TYPE` metadata lines once, then one data line per existing instance with
its current numeric value. -/
def renderCounter (nm help : String) (c : Counter) : String :=
  "# HELP " ++ nm ++ " " ++ help ++ "\n# TYPE " ++ nm ++ " counter\n" ++
  String.join (c.values.map (fun kv =>
    nm ++ "\x7b" ++ renderLabels kv.1 ++ "\x7d " ++ toString kv.2 ++ "\n"))

/-- Modelled from the spec: gauge data lines of the serializer. -/
def renderGauge (nm help : String) (g : Gauge) : String :=
  "# HELP " ++ nm ++ " " ++ help ++ "\n# TYPE " ++ nm ++ " gauge\n" ++
  String.join (g.values.map (fun kv =>
    nm ++ "\x7b" ++ renderLabels kv.1 ++ "\x7d " ++ toString kv.2 ++ "\n"))

/-- Modelled from the spec: histogram serialization — one line per
cumulative bucket of each existing instance, plus `_sum` and `_count`
lines. -/
def renderHistogram (nm help : String) (h : Histogram) : String :=
  "# HELP " ++ nm ++ " " ++ help ++ "\n# TYPE " ++ nm ++ " histogram\n" ++
  String.join (h.values.map (fun kv =>
    String.join ((h.buckets.zip kv.2.bucketCounts).map (fun bc =>
      nm ++ "_bucket\x7b" ++ renderLabels kv.1 ++ ",le=" ++ toString bc.1 ++
        "\x7d " ++ toString bc.2 ++ "\n")) ++
    nm ++ "_sum\x7b" ++ renderLabels kv.1 ++ "\x7d " ++ toString kv.2.sum ++ "\n" ++
    nm ++ "_count\x7b" ++ renderLabels kv.1 ++ "\x7d " ++ toString kv.2.count ++ "\n"))

namespace ProductService

/-- Modelled from the spec: the full exposition text of the product
service's registry, metrics in registration order. -/
def render (s : Metrics) : String :=
  renderCounter "product_views_total" "Total number of product views"
    s.product_views_total ++
  renderCounter "products_added_to_cart_total"
    "Total number of products added to cart" s.products_added_to_cart_total ++
  renderCounter "product_search_queries_total"
    "Total number of product search queries" s.product_search_queries_total ++
  renderGauge "product_inventory_level" "Current inventory level for products"
    s.product_inventory_level ++
  renderGauge "product_current_price" "Current price of products"
    s.product_current_price ++
  renderCounter "http_requests_total" "Total HTTP requests"
    s.http_requests_total ++
  renderHistogram "http_request_duration_seconds"
    "HTTP request duration in seconds" s.http_request_duration_seconds ++
  renderHistogram "database_query_duration_seconds"
    "Database query duration in seconds" s.database_query_duration_seconds ++
  renderGauge "database_connections_active"
    "Number of active database connections" s.database_connections_active ++
  renderGauge "database_connections_idle"
    "Number of idle database connections" s.database_connections_idle ++
  renderGauge "database_connections_max"
    "Maximum number of database connections" s.database_connections_max ++
  renderCounter "redis_cache_hits_total" "Total number of cache hits"
    s.redis_cache_hits_total ++
  renderCounter "redis_cache_misses_total" "Total number of cache misses"
    s.redis_cache_misses_total ++
  renderCounter "redis_operations_total" "Total Redis operations"
    s.redis_operations_total ++
  renderHistogram "redis_operation_duration_seconds"
    "Redis operation duration in seconds" s.redis_operation_duration_seconds

/-- `get_metrics()` returns `generate_latest()` — the exposition text of
the current metric state; the state is read, never written, so the
resulting state is returned unchanged. -/
def get_metrics (s : Metrics) : String × Metrics :=
  (render s, s)

end ProductService

namespace UserService

/-- Modelled from the spec: the full exposition text of the user
service's registry, metrics in registration order. -/
def render (s : Metrics) : String :=
  renderCounter "user_registrations_total" "Total number of user registrations"
    s.user_registrations_total ++
  renderCounter "user_login_attempts_total" "Total number of login attempts"
    s.user_login_attempts_total ++
  renderGauge "user_active_sessions" "Number of active user sessions"
    s.user_active_sessions ++
  renderCounter "user_sessions_created_total" "Total number of sessions created"
    s.user_sessions_created_total ++
  renderCounter "user_password_reset_requests_total"
    "Total number of password reset requests"
    s.user_password_reset_requests_total ++
  renderCounter "user_profile_updates_total" "Total number of profile updates"
    s.user_profile_updates_total ++
  renderCounter "user_email_verifications_total"
    "Total number of email verifications" s.user_email_verifications_total ++
  renderCounter "user_account_actions_total" "Total number of account actions"
    s.user_account_actions_total ++
  renderCounter "http_requests_total" "Total HTTP requests"
    s.http_requests_total ++
  renderHistogram "http_request_duration_seconds"
    "HTTP request duration in seconds" s.http_request_duration_seconds ++
  renderCounter "jwt_tokens_issued_total" "Total number of JWT tokens issued"
    s.jwt_tokens_issued_total ++
  renderCounter "jwt_tokens_validated_total"
    "Total number of JWT token validations" s.jwt_tokens_validated_total ++
  renderCounter "jwt_tokens_revoked_total" "Total number of JWT tokens revoked"
    s.jwt_tokens_revoked_total ++
  renderHistogram "auth_operation_duration_seconds"
    "Authentication operation duration in seconds"
    s.auth_operation_duration_seconds ++
  renderHistogram "database_query_duration_seconds"
    "Database query duration in seconds" s.database_query_duration_seconds ++
  renderGauge "database_connections_active"
    "Number of active database connections" s.database_connections_active ++
  renderGauge "database_connections_idle"
    "Number of idle database connections" s.database_connections_idle ++
  renderCounter "redis_cache_hits_total" "Total number of cache hits"
    s.redis_cache_hits_total ++
  renderCounter "redis_cache_misses_total" "Total number of cache misses"
    s.redis_cache_misses_total ++
  renderCounter "redis_operations_total" "Total Redis operations"
    s.redis_operations_total ++
  renderCounter "failed_login_attempts_by_ip"
    "Failed login attempts grouped by IP" s.failed_login_attempts_by_ip ++
  renderCounter "suspicious_activities_total"
    "Total number of suspicious activities detected"
    s.suspicious_activities_total ++
  renderCounter "rate_limit_exceeded_total"
    "Total number of rate limit violations" s.rate_limit_exceeded_total

/-- `get_metrics()` of the user service: returns the exposition text, the
state is only read. -/
def get_metrics (s : Metrics) : String × Metrics :=
  (render s, s)

end UserService

/-! ## Helper lemmas about metric instances -/

theorem Counter.get_inc (c : Counter) (ls ls' : Labels) :
    (c.inc ls).get ls' = if ls' = ls then c.get ls + 1 else c.get ls' :=
  getA_updA 0 c.values ls ls' (· + 1)

theorem Counter.get_le_inc (c : Counter) (ls ls' : Labels) :
    c.get ls' ≤ (c.inc ls).get ls' := by
  rw [Counter.get_inc]
  split_ifs with h
  · subst h; omega
  · exact le_refl _

/-- Sum of a counter's value over all of its instances. -/
def Counter.total (c : Counter) : Int :=
  sumA (fun x => x) c.values

theorem Counter.total_inc (c : Counter) (ls : Labels) :
    (c.inc ls).total = c.total + 1 :=
  sumA_updA 0 c.values ls (· + 1) (fun x => x) 1 (fun _ => rfl) rfl

theorem Histogram.buckets_observe (h : Histogram) (ls : Labels) (v : Rat) :
    (h.observe ls v).buckets = h.buckets := rfl

theorem Histogram.get_observe (h : Histogram) (ls ls' : Labels) (v : Rat) :
    (h.observe ls v).get ls' =
      if ls' = ls then (h.get ls).observe h.buckets v else h.get ls' :=
  getA_updA (HistoData.init h.buckets) h.values ls ls' (fun hd => hd.observe h.buckets v)

/-- Total number of observations over all instances of a histogram. -/
def Histogram.totalCount (h : Histogram) : Int :=
  sumA (fun hd => (hd.count : Int)) h.values

theorem Histogram.totalCount_observe (h : Histogram) (ls : Labels) (v : Rat) :
    (h.observe ls v).totalCount = h.totalCount + 1 :=
  sumA_updA (HistoData.init h.buckets) h.values ls (fun hd => hd.observe h.buckets v)
    (fun hd => (hd.count : Int)) 1
    (fun a => by simp [HistoData.observe])
    (by simp [HistoData.init])

/-! ## Claim theorems -/

/-- C1: every wrapped operation — HTTP endpoint, database query, auth
operation or cache operation, in either service — returns to its caller
exactly the outcome (returned value or raised exception) that the wrapped
operation produced; the wrapper never swallows, replaces or alters it. -/
theorem c1_wrappers_transparent (e o t k a : String) (op : Outcome) (d : Rat)
    (s : ProductService.Metrics) (u : UserService.Metrics) :
    (ProductService.track_endpoint_metrics e op d s).1 = op ∧
    (ProductService.track_database_query o t op d s).1 = op ∧
    (ProductService.track_cache_operation o k op d s).1 = op ∧
    (UserService.track_endpoint_metrics e op d u).1 = op ∧
    (UserService.track_auth_operation a op d u).1 = op :=
  ⟨rfl, rfl, rfl, rfl, rfl⟩

/-- C8: `get_metrics` is idempotent and read-only — it leaves the metric
state unchanged and, called twice with no intervening update, produces
identical output. -/
theorem c8_get_metrics_idempotent_readonly
    (s : ProductService.Metrics) (u : UserService.Metrics) :
    (ProductService.get_metrics s).2 = s ∧
    (ProductService.get_metrics ((ProductService.get_metrics s).2)).1 =
      (ProductService.get_metrics s).1 ∧
    (UserService.get_metrics u).2 = u ∧
    (UserService.get_metrics ((UserService.get_metrics u).2)).1 =
      (UserService.get_metrics u).1 :=
  ⟨rfl, rfl, rfl, rfl⟩

/-- C2 (failing input): the wrappers hardcode the HTTP method label
instead of reading the actual request method.  A product-service call
whose actual method is POST (and a user-service call whose actual method
is GET), returning status 200 on endpoint `/x`, leaves the counter
instance labeled with the actual method at 0 and instead increments the
instance labeled with the hardcoded method (`'GET'` in the product
service, `'POST'` in the user service). -/
theorem c2_method_label_hardcoded :
    ((ProductService.track_endpoint_metrics "/x"
        (Except.ok (PyValue.response 200 "ok")) 1
        ProductService.initial).2.http_requests_total.get ["POST", "/x", "200"] = 0 ∧
     (ProductService.track_endpoint_metrics "/x"
        (Except.ok (PyValue.response 200 "ok")) 1
        ProductService.initial).2.http_requests_total.get ["GET", "/x", "200"] = 1) ∧
    ((UserService.track_endpoint_metrics "/x"
        (Except.ok (PyValue.response 200 "ok")) 1
        UserService.initial).2.http_requests_total.get ["GET", "/x", "200"] = 0 ∧
     (UserService.track_endpoint_metrics "/x"
        (Except.ok (PyValue.response 200 "ok")) 1
        UserService.initial).2.http_requests_total.get ["POST", "/x", "200"] = 1) := by
  exact ⟨⟨by decide, by decide⟩, ⟨by decide, by decide⟩⟩

/-- C10: a cache `get` that completes normally with a non-`None` but
falsy value — empty string, empty list, or the integer 0 — is classified
as a hit: the hit counter is incremented and the miss counter is not,
because the code tests only `result is not None`. -/
theorem c10_falsy_nonnone_is_hit :
    ((PyValue.str "").isNone = false ∧ (PyValue.list []).isNone = false ∧
      (PyValue.int 0).isNone = false) ∧
    ((ProductService.track_cache_operation "get" "k" (Except.ok (PyValue.str "")) 1
        ProductService.initial).2.redis_cache_hits_total.get ["k"] = 1 ∧
     (ProductService.track_cache_operation "get" "k" (Except.ok (PyValue.str "")) 1
        ProductService.initial).2.redis_cache_misses_total.get ["k"] = 0) ∧
    ((ProductService.track_cache_operation "get" "k" (Except.ok (PyValue.list [])) 1
        ProductService.initial).2.redis_cache_hits_total.get ["k"] = 1 ∧
     (ProductService.track_cache_operation "get" "k" (Except.ok (PyValue.list [])) 1
        ProductService.initial).2.redis_cache_misses_total.get ["k"] = 0) ∧
    ((ProductService.track_cache_operation "get" "k" (Except.ok (PyValue.int 0)) 1
        ProductService.initial).2.redis_cache_hits_total.get ["k"] = 1 ∧
     (ProductService.track_cache_operation "get" "k" (Except.ok (PyValue.int 0)) 1
        ProductService.initial).2.redis_cache_misses_total.get ["k"] = 0) := by
  exact ⟨⟨rfl, rfl, rfl⟩, ⟨by decide, by decide⟩, ⟨by decide, by decide⟩,
    ⟨by decide, by decide⟩⟩

/-- C3: for every wrapped call of either service the finally-block
metric updates happen exactly once per invocation, whether the wrapped
operation returned or raised: the duration histogram of the wrapper's
operation identity gains exactly one observation (both at its label and
in total over all instances), the HTTP request counter (and the cache
operation counter) gains exactly one increment in total, and the updated
state is produced together with — hence before re-raising — the
unchanged outcome. -/
theorem c3_finally_updates_exactly_once (e o t k : String) (op : Outcome)
    (d : Rat) (s : ProductService.Metrics) (u : UserService.Metrics) :
    ((ProductService.track_endpoint_metrics e op d s).2.http_request_duration_seconds.totalCount
        = s.http_request_duration_seconds.totalCount + 1 ∧
     ((ProductService.track_endpoint_metrics e op d s).2.http_request_duration_seconds.get
        ["GET", e]).count
        = (s.http_request_duration_seconds.get ["GET", e]).count + 1 ∧
     (ProductService.track_endpoint_metrics e op d s).2.http_requests_total.total
        = s.http_requests_total.total + 1 ∧
     (ProductService.track_endpoint_metrics e op d s).1 = op) ∧
    ((ProductService.track_database_query o t op d s).2.database_query_duration_seconds.totalCount
        = s.database_query_duration_seconds.totalCount + 1 ∧
     (ProductService.track_database_query o t op d s).1 = op) ∧
    ((ProductService.track_cache_operation o k op d s).2.redis_operation_duration_seconds.totalCount
        = s.redis_operation_duration_seconds.totalCount + 1 ∧
     (ProductService.track_cache_operation o k op d s).2.redis_operations_total.total
        = s.redis_operations_total.total + 1 ∧
     (ProductService.track_cache_operation o k op d s).1 = op) ∧
    ((UserService.track_endpoint_metrics e op d u).2.http_request_duration_seconds.totalCount
        = u.http_request_duration_seconds.totalCount + 1 ∧
     ((UserService.track_endpoint_metrics e op d u).2.http_request_duration_seconds.get
        ["POST", e]).count
        = (u.http_request_duration_seconds.get ["POST", e]).count + 1 ∧
     (UserService.track_endpoint_metrics e op d u).2.http_requests_total.total
        = u.http_requests_total.total + 1 ∧
     (UserService.track_endpoint_metrics e op d u).1 = op) ∧
    ((UserService.track_auth_operation o op d u).2.auth_operation_duration_seconds.totalCount
        = u.auth_operation_duration_seconds.totalCount + 1 ∧
     ((UserService.track_auth_operation o op d u).2.auth_operation_duration_seconds.get
        [o]).count
        = (u.auth_operation_duration_seconds.get [o]).count + 1 ∧
     (UserService.track_auth_operation o op d u).1 = op) := by
  refine ⟨⟨?_, ?_, ?_, rfl⟩, ⟨?_, rfl⟩, ?_, ⟨?_, ?_, ?_, rfl⟩, ⟨?_, ?_, rfl⟩⟩
  · simp [ProductService.track_endpoint_metrics, Histogram.totalCount_observe]
  · simp [ProductService.track_endpoint_metrics, Histogram.get_observe, HistoData.observe]
  · simp [ProductService.track_endpoint_metrics, Counter.total_inc]
  · simp [ProductService.track_database_query, Histogram.totalCount_observe]
  · cases op with
    | error ex =>
      exact ⟨by simp [ProductService.track_cache_operation, Histogram.totalCount_observe],
        by simp [ProductService.track_cache_operation, Counter.total_inc], rfl⟩
    | ok v =>
      by_cases ho : o = "get"
      · cases hv : v.isNone <;>
          exact ⟨by simp [ProductService.track_cache_operation, ho, hv,
              Histogram.totalCount_observe],
            by simp [ProductService.track_cache_operation, ho, hv, Counter.total_inc], rfl⟩
      · exact ⟨by simp [ProductService.track_cache_operation, ho,
            Histogram.totalCount_observe],
          by simp [ProductService.track_cache_operation, ho, Counter.total_inc], rfl⟩
  · simp [UserService.track_endpoint_metrics, Histogram.totalCount_observe]
  · simp [UserService.track_endpoint_metrics, Histogram.get_observe, HistoData.observe]
  · simp [UserService.track_endpoint_metrics, Counter.total_inc]
  · simp [UserService.track_auth_operation, Histogram.totalCount_observe]
  · simp [UserService.track_auth_operation, Histogram.get_observe, HistoData.observe]

/-- C4: the outcome status recorded on `http_requests_total` is the
result's `status_code` when the call returns a value exposing one, 200
when it returns a value without one, and 500 when it raises; the counter
instance incremented is exactly the one labeled with that status. -/
theorem c4_endpoint_status_classification (e : String) (op : Outcome) (d : Rat)
    (s : ProductService.Metrics) (st : String) :
    ((ProductService.track_endpoint_metrics e op d s).2.http_requests_total.get ["GET", e, st]
        = s.http_requests_total.get ["GET", e, st] +
          (if st = toString (endpointStatus op) then 1 else 0)) ∧
    (∀ (sc : Nat) (body : String),
      endpointStatus (Except.ok (PyValue.response sc body)) = sc) ∧
    (∀ v : PyValue, v.statusCode = Option.none → endpointStatus (Except.ok v) = 200) ∧
    (∀ ex : PyExc, endpointStatus (Except.error ex) = 500) := by
  refine ⟨?_, fun sc body => rfl, ?_, fun ex => rfl⟩
  · simp only [ProductService.track_endpoint_metrics, Counter.get_inc]
    by_cases h : st = toString (endpointStatus op)
    · simp [h]
    · simp [h]
  · intro v hv
    simp [endpointStatus, hv]

/-- C4 witness: a concrete call returning a plain object with no
`status_code` attribute is classified as 200 and increments exactly the
status-200 instance. -/
theorem c4_endpoint_status_classification_witness :
    (PyValue.obj "dict").statusCode = Option.none ∧
    endpointStatus (Except.ok (PyValue.obj "dict")) = 200 ∧
    (ProductService.track_endpoint_metrics "/x" (Except.ok (PyValue.obj "dict")) 1
        ProductService.initial).2.http_requests_total.get ["GET", "/x", "200"]
      = ProductService.initial.http_requests_total.get ["GET", "/x", "200"] +
        (if "200" = toString (endpointStatus (Except.ok (PyValue.obj "dict")))
         then 1 else 0) := by
  refine ⟨rfl, ?_, ?_⟩
  · exact (c4_endpoint_status_classification "/x" (Except.ok (PyValue.obj "dict")) 1
      ProductService.initial "200").2.2.1 (PyValue.obj "dict") rfl
  · exact (c4_endpoint_status_classification "/x" (Except.ok (PyValue.obj "dict")) 1
      ProductService.initial "200").1

/-- C5: for a cache-wrapped call that completes normally, a `get`
returning non-`None` increments exactly the hit counter, a `get`
returning `None` increments exactly the miss counter, any other
operation increments neither — and in every case the operation counter
and the duration histogram record the call exactly once. -/
theorem c5_cache_hit_miss_classification (operation key_type kt : String)
    (v : PyValue) (d : Rat) (s : ProductService.Metrics) :
    ((ProductService.track_cache_operation operation key_type (Except.ok v) d
        s).2.redis_cache_hits_total.get [kt]
      = s.redis_cache_hits_total.get [kt] +
        (if operation = "get" ∧ v.isNone = false ∧ kt = key_type then 1 else 0)) ∧
    ((ProductService.track_cache_operation operation key_type (Except.ok v) d
        s).2.redis_cache_misses_total.get [kt]
      = s.redis_cache_misses_total.get [kt] +
        (if operation = "get" ∧ v.isNone = true ∧ kt = key_type then 1 else 0)) ∧
    ((ProductService.track_cache_operation operation key_type (Except.ok v) d
        s).2.redis_operations_total.get [operation]
      = s.redis_operations_total.get [operation] + 1) ∧
    (((ProductService.track_cache_operation operation key_type (Except.ok v) d
        s).2.redis_operation_duration_seconds.get [operation]).count
      = (s.redis_operation_duration_seconds.get [operation]).count + 1) := by
  by_cases ho : operation = "get"
  · cases hv : v.isNone
    · by_cases hk : kt = key_type <;>
        simp [ProductService.track_cache_operation, ho, hv, hk, Counter.get_inc,
          Histogram.get_observe, HistoData.observe]
    · by_cases hk : kt = key_type <;>
        simp [ProductService.track_cache_operation, ho, hv, hk, Counter.get_inc,
          Histogram.get_observe, HistoData.observe]
  · simp [ProductService.track_cache_operation, ho, Counter.get_inc,
      Histogram.get_observe, HistoData.observe]

/-- C6: observing `v` on a histogram instance increments `count` by one,
adds `v` to `sum`, and increments exactly the cumulative buckets whose
upper bound is `>= v`, leaving smaller buckets unchanged; in particular
observing `[2, 7, 15]` against buckets `[5, 10, 20]` yields cumulative
counts `[1, 2, 3]`, `sum = 24` and `count = 3`. -/
theorem c6_histogram_observe (buckets : List Rat) (h : HistoData) (v : Rat)
    (hlen : h.bucketCounts.length = buckets.length) :
    (h.observe buckets v).count = h.count + 1 ∧
    (h.observe buckets v).sum = h.sum + v ∧
    (h.observe buckets v).bucketCounts.length = buckets.length ∧
    (∀ i, i < buckets.length →
      (h.observe buckets v).bucketCounts.getD i 0 =
        h.bucketCounts.getD i 0 + (if v ≤ buckets.getD i 0 then 1 else 0)) ∧
    ((((HistoData.init [5, 10, 20]).observe [5, 10, 20] 2).observe [5, 10, 20] 7).observe
        [5, 10, 20] 15 = ⟨[1, 2, 3], 24, 3⟩) := by
  have hz : (List.zipWith (fun b c => if v ≤ b then c + 1 else c) buckets
      h.bucketCounts).length = buckets.length := by
    simp [List.length_zipWith, hlen]
  refine ⟨rfl, rfl, hz, ?_, by norm_num [HistoData.init, HistoData.observe]⟩
  intro i hi
  have hib : i < h.bucketCounts.length := by omega
  have hiz : i < (List.zipWith (fun b c => if v ≤ b then c + 1 else c) buckets
      h.bucketCounts).length := by omega
  simp only [HistoData.observe]
  rw [List.getD_eq_getElem _ _ hiz, List.getD_eq_getElem _ _ hib,
    List.getD_eq_getElem _ _ hi, List.getElem_zipWith]
  split_ifs <;> omega

/-- C6 witness: the hypothesis holds for a fresh instance over buckets
`[5, 10, 20]`, and the theorem instantiated there yields the scenario
result. -/
theorem c6_histogram_observe_witness :
    (HistoData.init [5, 10, 20]).bucketCounts.length = ([5, 10, 20] : List Rat).length ∧
    ((((HistoData.init [5, 10, 20]).observe [5, 10, 20] 2).observe [5, 10, 20] 7).observe
        [5, 10, 20] 15 = ⟨[1, 2, 3], 24, 3⟩) := by
  have hlen : (HistoData.init [5, 10, 20]).bucketCounts.length
      = ([5, 10, 20] : List Rat).length := by
    simp [HistoData.init]
  exact ⟨hlen,
    (c6_histogram_observe [5, 10, 20] (HistoData.init [5, 10, 20]) 2 hlen).2.2.2.2⟩

/-! ## Linking the two HTTP metrics (claim C9) -/

/-- `true` exactly on the label tuples `[m, e, st]` of
`http_requests_total` whose method/endpoint pair is `(m, e)`. -/
def isMethodEndpoint (m e : String) : Labels → Bool
  | [m', e', _] => m' == m && e' == e
  | _ => false

/-- Sum of an HTTP request counter over every status label for the
method/endpoint pair `(m, e)`. -/
def httpStatusSum (c : Counter) (m e : String) : Int :=
  sumFilterA (isMethodEndpoint m e) (fun x => x) c.values

/-- The linking invariant between a request-duration histogram and a
request counter: for every method/endpoint pair, the histogram's
observation count equals the counter summed over all statuses. -/
def HttpLinked (hist : Histogram) (c : Counter) : Prop :=
  ∀ m e : String, (((hist.get [m, e]).count : Int)) = httpStatusSum c m e

theorem httpLinked_step (hist : Histogram) (c : Counter) (meth e st : String)
    (d : Rat) (hinv : HttpLinked hist c) :
    HttpLinked (hist.observe [meth, e] d) (c.inc [meth, e, st]) := by
  intro m e'
  rw [Histogram.get_observe]
  unfold httpStatusSum
  simp only [Counter.inc]
  rw [sumFilterA_updA 0 c.values [meth, e, st] (· + 1) _ _ 1 (fun _ => rfl) rfl]
  rw [← httpStatusSum, ← hinv m e']
  by_cases h1 : m = meth <;> by_cases h2 : e' = e <;>
    simp [h1, h2, isMethodEndpoint, HistoData.observe, Ne.symm]

theorem httpLinked_empty (bk : List Rat) :
    HttpLinked { buckets := bk } {} := by
  intro m e
  simp [Histogram.get, getA, HistoData.init, httpStatusSum, sumFilterA]

/-- C9: in both services the two HTTP metrics stay linked — the
observation count of `http_request_duration_seconds` for a
method/endpoint pair equals `http_requests_total` summed over every
status for the same pair.  The invariant holds at module start and is
preserved by every invocation of the endpoint wrapper, normal or
exceptional, because both metrics are updated together exactly once. -/
theorem c9_http_metrics_linked :
    HttpLinked ProductService.initial.http_request_duration_seconds
      ProductService.initial.http_requests_total ∧
    (∀ (e : String) (op : Outcome) (d : Rat) (s : ProductService.Metrics),
      HttpLinked s.http_request_duration_seconds s.http_requests_total →
      HttpLinked
        (ProductService.track_endpoint_metrics e op d s).2.http_request_duration_seconds
        (ProductService.track_endpoint_metrics e op d s).2.http_requests_total) ∧
    HttpLinked UserService.initial.http_request_duration_seconds
      UserService.initial.http_requests_total ∧
    (∀ (e : String) (op : Outcome) (d : Rat) (u : UserService.Metrics),
      HttpLinked u.http_request_duration_seconds u.http_requests_total →
      HttpLinked
        (UserService.track_endpoint_metrics e op d u).2.http_request_duration_seconds
        (UserService.track_endpoint_metrics e op d u).2.http_requests_total) := by
  refine ⟨httpLinked_empty _, ?_, httpLinked_empty _, ?_⟩
  · intro e op d s hs
    exact httpLinked_step _ _ "GET" e (toString (endpointStatus op)) d hs
  · intro e op d u hu
    exact httpLinked_step _ _ "POST" e (toString (endpointStatus op)) d hu

/-- C9 witness: the invariant after one successful product-service call
and one failing user-service call, both starting from the initial state. -/
theorem c9_http_metrics_linked_witness :
    HttpLinked (ProductService.track_endpoint_metrics "/x" (Except.ok PyValue.none) 1
        ProductService.initial).2.http_request_duration_seconds
      (ProductService.track_endpoint_metrics "/x" (Except.ok PyValue.none) 1
        ProductService.initial).2.http_requests_total ∧
    HttpLinked (UserService.track_endpoint_metrics "/y" (Except.error ⟨"boom"⟩) 1
        UserService.initial).2.http_request_duration_seconds
      (UserService.track_endpoint_metrics "/y" (Except.error ⟨"boom"⟩) 1
        UserService.initial).2.http_requests_total :=
  ⟨c9_http_metrics_linked.2.1 "/x" (Except.ok PyValue.none) 1 ProductService.initial
      c9_http_metrics_linked.1,
   c9_http_metrics_linked.2.2.2 "/y" (Except.error ⟨"boom"⟩) 1 UserService.initial
      c9_http_metrics_linked.2.2.1⟩

/-! ## Counter monotonicity (claim C7) -/

/-- Every counter metric of the product service is pointwise at most the
corresponding counter of `t` (fields in registration order). -/
def ProductService.countersLe (s t : ProductService.Metrics) : Prop :=
  ∀ ls : Labels,
    s.product_views_total.get ls ≤ t.product_views_total.get ls ∧
    s.products_added_to_cart_total.get ls ≤ t.products_added_to_cart_total.get ls ∧
    s.product_search_queries_total.get ls ≤ t.product_search_queries_total.get ls ∧
    s.http_requests_total.get ls ≤ t.http_requests_total.get ls ∧
    s.redis_cache_hits_total.get ls ≤ t.redis_cache_hits_total.get ls ∧
    s.redis_cache_misses_total.get ls ≤ t.redis_cache_misses_total.get ls ∧
    s.redis_operations_total.get ls ≤ t.redis_operations_total.get ls

/-- Every counter metric of the user service is pointwise at most the
corresponding counter of `t` (fields in registration order). -/
def UserService.countersLe (s t : UserService.Metrics) : Prop :=
  ∀ ls : Labels,
    s.user_registrations_total.get ls ≤ t.user_registrations_total.get ls ∧
    s.user_login_attempts_total.get ls ≤ t.user_login_attempts_total.get ls ∧
    s.user_sessions_created_total.get ls ≤ t.user_sessions_created_total.get ls ∧
    s.user_password_reset_requests_total.get ls ≤ t.user_password_reset_requests_total.get ls ∧
    s.user_profile_updates_total.get ls ≤ t.user_profile_updates_total.get ls ∧
    s.user_email_verifications_total.get ls ≤ t.user_email_verifications_total.get ls ∧
    s.user_account_actions_total.get ls ≤ t.user_account_actions_total.get ls ∧
    s.http_requests_total.get ls ≤ t.http_requests_total.get ls ∧
    s.jwt_tokens_issued_total.get ls ≤ t.jwt_tokens_issued_total.get ls ∧
    s.jwt_tokens_validated_total.get ls ≤ t.jwt_tokens_validated_total.get ls ∧
    s.jwt_tokens_revoked_total.get ls ≤ t.jwt_tokens_revoked_total.get ls ∧
    s.redis_cache_hits_total.get ls ≤ t.redis_cache_hits_total.get ls ∧
    s.redis_cache_misses_total.get ls ≤ t.redis_cache_misses_total.get ls ∧
    s.redis_operations_total.get ls ≤ t.redis_operations_total.get ls ∧
    s.failed_login_attempts_by_ip.get ls ≤ t.failed_login_attempts_by_ip.get ls ∧
    s.suspicious_activities_total.get ls ≤ t.suspicious_activities_total.get ls ∧
    s.rate_limit_exceeded_total.get ls ≤ t.rate_limit_exceeded_total.get ls

/-- C7: every counter starts at 0 in both initial module states; a
counter increment with a negative amount fails (and only then); a plain
`inc` never decreases any instance; and every operation either module
exposes — wrappers, business-event recorders, gauge updaters and the
metrics endpoint — leaves every counter instance pointwise
non-decreasing. -/
theorem c7_counters_monotone :
    (∀ ls : Labels,
      ProductService.initial.product_views_total.get ls = 0 ∧
      ProductService.initial.products_added_to_cart_total.get ls = 0 ∧
      ProductService.initial.product_search_queries_total.get ls = 0 ∧
      ProductService.initial.http_requests_total.get ls = 0 ∧
      ProductService.initial.redis_cache_hits_total.get ls = 0 ∧
      ProductService.initial.redis_cache_misses_total.get ls = 0 ∧
      ProductService.initial.redis_operations_total.get ls = 0) ∧
    (∀ ls : Labels,
      UserService.initial.user_registrations_total.get ls = 0 ∧
      UserService.initial.user_login_attempts_total.get ls = 0 ∧
      UserService.initial.user_sessions_created_total.get ls = 0 ∧
      UserService.initial.user_password_reset_requests_total.get ls = 0 ∧
      UserService.initial.user_profile_updates_total.get ls = 0 ∧
      UserService.initial.user_email_verifications_total.get ls = 0 ∧
      UserService.initial.user_account_actions_total.get ls = 0 ∧
      UserService.initial.http_requests_total.get ls = 0 ∧
      UserService.initial.jwt_tokens_issued_total.get ls = 0 ∧
      UserService.initial.jwt_tokens_validated_total.get ls = 0 ∧
      UserService.initial.jwt_tokens_revoked_total.get ls = 0 ∧
      UserService.initial.redis_cache_hits_total.get ls = 0 ∧
      UserService.initial.redis_cache_misses_total.get ls = 0 ∧
      UserService.initial.redis_operations_total.get ls = 0 ∧
      UserService.initial.failed_login_attempts_by_ip.get ls = 0 ∧
      UserService.initial.suspicious_activities_total.get ls = 0 ∧
      UserService.initial.rate_limit_exceeded_total.get ls = 0) ∧
    (∀ (c : Counter) (ls : Labels) (a : Int),
      Counter.incBy c ls a = Option.none ↔ a < 0) ∧
    (∀ (c : Counter) (ls ls' : Labels), c.get ls' ≤ (c.inc ls).get ls') ∧
    (∀ (e : String) (op : Outcome) (d : Rat) (s : ProductService.Metrics),
      ProductService.countersLe s (ProductService.track_endpoint_metrics e op d s).2) ∧
    (∀ (o t : String) (op : Outcome) (d : Rat) (s : ProductService.Metrics),
      ProductService.countersLe s (ProductService.track_database_query o t op d s).2) ∧
    (∀ (o k : String) (op : Outcome) (d : Rat) (s : ProductService.Metrics),
      ProductService.countersLe s (ProductService.track_cache_operation o k op d s).2) ∧
    (∀ (a b c : String) (s : ProductService.Metrics),
      ProductService.countersLe s (ProductService.track_product_view a b c s)) ∧
    (∀ (a b : String) (s : ProductService.Metrics),
      ProductService.countersLe s (ProductService.track_add_to_cart a b s)) ∧
    (∀ (a : String) (s : ProductService.Metrics),
      ProductService.countersLe s (ProductService.track_product_search a s)) ∧
    (∀ (a b : String) (q : Int) (s : ProductService.Metrics),
      ProductService.countersLe s (ProductService.update_product_inventory a b q s)) ∧
    (∀ (a b : String) (p : Rat) (cu : String) (s : ProductService.Metrics),
      ProductService.countersLe s (ProductService.update_product_price a b p cu s)) ∧
    (∀ (ac idl mx : Int) (s : ProductService.Metrics),
      ProductService.countersLe s (ProductService.update_db_connection_stats ac idl mx s)) ∧
    (∀ s : ProductService.Metrics,
      ProductService.countersLe s (ProductService.get_metrics s).2) ∧
    (∀ (e : String) (op : Outcome) (d : Rat) (u : UserService.Metrics),
      UserService.countersLe u (UserService.track_endpoint_metrics e op d u).2) ∧
    (∀ (o : String) (op : Outcome) (d : Rat) (u : UserService.Metrics),
      UserService.countersLe u (UserService.track_auth_operation o op d u).2) ∧
    (∀ (src : String) (u : UserService.Metrics),
      UserService.countersLe u (UserService.track_user_registration src u)) ∧
    (∀ (b : Bool) (m : String) (u : UserService.Metrics),
      UserService.countersLe u (UserService.track_login_attempt b m u)) ∧
    (∀ (ip : String) (u : UserService.Metrics),
      UserService.countersLe u (UserService.track_failed_login_by_ip ip u)) ∧
    (∀ u : UserService.Metrics,
      UserService.countersLe u (UserService.track_session_creation u)) ∧
    (∀ (n : Int) (u : UserService.Metrics),
      UserService.countersLe u (UserService.update_active_sessions n u)) ∧
    (∀ (st : String) (u : UserService.Metrics),
      UserService.countersLe u (UserService.track_password_reset st u)) ∧
    (∀ (f : String) (u : UserService.Metrics),
      UserService.countersLe u (UserService.track_profile_update f u)) ∧
    (∀ (st : String) (u : UserService.Metrics),
      UserService.countersLe u (UserService.track_email_verification st u)) ∧
    (∀ (ac : String) (u : UserService.Metrics),
      UserService.countersLe u (UserService.track_account_action ac u)) ∧
    (∀ (tt : String) (u : UserService.Metrics),
      UserService.countersLe u (UserService.track_jwt_issued tt u)) ∧
    (∀ (st : String) (u : UserService.Metrics),
      UserService.countersLe u (UserService.track_jwt_validated st u)) ∧
    (∀ (r : String) (u : UserService.Metrics),
      UserService.countersLe u (UserService.track_jwt_revoked r u)) ∧
    (∀ (ty : String) (u : UserService.Metrics),
      UserService.countersLe u (UserService.track_suspicious_activity ty u)) ∧
    (∀ (ep uid : String) (u : UserService.Metrics),
      UserService.countersLe u (UserService.track_rate_limit_exceeded ep uid u)) ∧
    (∀ u : UserService.Metrics,
      UserService.countersLe u (UserService.get_metrics u).2) := by
  refine ⟨fun ls => ⟨rfl, rfl, rfl, rfl, rfl, rfl, rfl⟩,
    fun ls => ⟨rfl, rfl, rfl, rfl, rfl, rfl, rfl, rfl, rfl, rfl, rfl, rfl, rfl,
      rfl, rfl, rfl, rfl⟩,
    ?_, fun c ls ls' => Counter.get_le_inc c ls ls',
    ?_, ?_, ?_, ?_, ?_, ?_, ?_, ?_, ?_, ?_, ?_, ?_, ?_, ?_, ?_, ?_, ?_, ?_,
    ?_, ?_, ?_, ?_, ?_, ?_, ?_, ?_, ?_⟩
  · intro c ls a
    constructor
    · intro h
      by_contra ha
      simp [Counter.incBy, ha] at h
    · intro ha
      simp [Counter.incBy, ha]
  · intro e op d s ls
    exact ⟨le_refl _, le_refl _, le_refl _, Counter.get_le_inc _ _ _, le_refl _,
      le_refl _, le_refl _⟩
  · intro o t op d s ls
    exact ⟨le_refl _, le_refl _, le_refl _, le_refl _, le_refl _, le_refl _, le_refl _⟩
  · intro o k op d s ls
    cases op with
    | error ex =>
      exact ⟨le_refl _, le_refl _, le_refl _, le_refl _, le_refl _, le_refl _,
        Counter.get_le_inc _ _ _⟩
    | ok v =>
      simp only [ProductService.track_cache_operation]
      split_ifs with ho hv
      · exact ⟨le_refl _, le_refl _, le_refl _, le_refl _, le_refl _,
          Counter.get_le_inc _ _ _, Counter.get_le_inc _ _ _⟩
      · exact ⟨le_refl _, le_refl _, le_refl _, le_refl _,
          Counter.get_le_inc _ _ _, le_refl _, Counter.get_le_inc _ _ _⟩
      · exact ⟨le_refl _, le_refl _, le_refl _, le_refl _, le_refl _, le_refl _,
          Counter.get_le_inc _ _ _⟩
  · intro a b c s ls
    exact ⟨Counter.get_le_inc _ _ _, le_refl _, le_refl _, le_refl _, le_refl _,
      le_refl _, le_refl _⟩
  · intro a b s ls
    exact ⟨le_refl _, Counter.get_le_inc _ _ _, le_refl _, le_refl _, le_refl _,
      le_refl _, le_refl _⟩
  · intro a s ls
    exact ⟨le_refl _, le_refl _, Counter.get_le_inc _ _ _, le_refl _, le_refl _,
      le_refl _, le_refl _⟩
  · intro a b q s ls
    exact ⟨le_refl _, le_refl _, le_refl _, le_refl _, le_refl _, le_refl _, le_refl _⟩
  · intro a b p cu s ls
    exact ⟨le_refl _, le_refl _, le_refl _, le_refl _, le_refl _, le_refl _, le_refl _⟩
  · intro ac idl mx s ls
    exact ⟨le_refl _, le_refl _, le_refl _, le_refl _, le_refl _, le_refl _, le_refl _⟩
  · intro s ls
    exact ⟨le_refl _, le_refl _, le_refl _, le_refl _, le_refl _, le_refl _, le_refl _⟩
  · intro e op d u ls
    exact ⟨le_refl _, le_refl _, le_refl _, le_refl _, le_refl _, le_refl _,
      le_refl _, Counter.get_le_inc _ _ _, le_refl _, le_refl _, le_refl _,
      le_refl _, le_refl _, le_refl _, le_refl _, le_refl _, le_refl _⟩
  · intro o op d u ls
    exact ⟨le_refl _, le_refl _, le_refl _, le_refl _, le_refl _, le_refl _,
      le_refl _, le_refl _, le_refl _, le_refl _, le_refl _, le_refl _,
      le_refl _, le_refl _, le_refl _, le_refl _, le_refl _⟩
  · intro src u ls
    exact ⟨Counter.get_le_inc _ _ _, le_refl _, le_refl _, le_refl _, le_refl _,
      le_refl _, le_refl _, le_refl _, le_refl _, le_refl _, le_refl _,
      le_refl _, le_refl _, le_refl _, le_refl _, le_refl _, le_refl _⟩
  · intro b m u ls
    exact ⟨le_refl _, Counter.get_le_inc _ _ _, le_refl _, le_refl _, le_refl _,
      le_refl _, le_refl _, le_refl _, le_refl _, le_refl _, le_refl _,
      le_refl _, le_refl _, le_refl _, le_refl _, le_refl _, le_refl _⟩
  · intro ip u ls
    exact ⟨le_refl _, le_refl _, le_refl _, le_refl _, le_refl _, le_refl _,
      le_refl _, le_refl _, le_refl _, le_refl _, le_refl _, le_refl _,
      le_refl _, le_refl _, Counter.get_le_inc _ _ _, le_refl _, le_refl _⟩
  · intro u ls
    exact ⟨le_refl _, le_refl _, Counter.get_le_inc _ _ _, le_refl _, le_refl _,
      le_refl _, le_refl _, le_refl _, le_refl _, le_refl _, le_refl _,
      le_refl _, le_refl _, le_refl _, le_refl _, le_refl _, le_refl _⟩
  · intro n u ls
    exact ⟨le_refl _, le_refl _, le_refl _, le_refl _, le_refl _, le_refl _,
      le_refl _, le_refl _, le_refl _, le_refl _, le_refl _, le_refl _,
      le_refl _, le_refl _, le_refl _, le_refl _, le_refl _⟩
  · intro st u ls
    exact ⟨le_refl _, le_refl _, le_refl _, Counter.get_le_inc _ _ _, le_refl _,
      le_refl _, le_refl _, le_refl _, le_refl _, le_refl _, le_refl _,
      le_refl _, le_refl _, le_refl _, le_refl _, le_refl _, le_refl _⟩
  · intro f u ls
    exact ⟨le_refl _, le_refl _, le_refl _, le_refl _, Counter.get_le_inc _ _ _,
      le_refl _, le_refl _, le_refl _, le_refl _, le_refl _, le_refl _,
      le_refl _, le_refl _, le_refl _, le_refl _, le_refl _, le_refl _⟩
  · intro st u ls
    exact ⟨le_refl _, le_refl _, le_refl _, le_refl _, le_refl _,
      Counter.get_le_inc _ _ _, le_refl _, le_refl _, le_refl _, le_refl _,
      le_refl _, le_refl _, le_refl _, le_refl _, le_refl _, le_refl _, le_refl _⟩
  · intro ac u ls
    exact ⟨le_refl _, le_refl _, le_refl _, le_refl _, le_refl _, le_refl _,
      Counter.get_le_inc _ _ _, le_refl _, le_refl _, le_refl _, le_refl _,
      le_refl _, le_refl _, le_refl _, le_refl _, le_refl _, le_refl _⟩
  · intro tt u ls
    exact ⟨le_refl _, le_refl _, le_refl _, le_refl _, le_refl _, le_refl _,
      le_refl _, le_refl _, Counter.get_le_inc _ _ _, le_refl _, le_refl _,
      le_refl _, le_refl _, le_refl _, le_refl _, le_refl _, le_refl _⟩
  · intro st u ls
    exact ⟨le_refl _, le_refl _, le_refl _, le_refl _, le_refl _, le_refl _,
      le_refl _, le_refl _, le_refl _, Counter.get_le_inc _ _ _, le_refl _,
      le_refl _, le_refl _, le_refl _, le_refl _, le_refl _, le_refl _⟩
  · intro r u ls
    exact ⟨le_refl _, le_refl _, le_refl _, le_refl _, le_refl _, le_refl _,
      le_refl _, le_refl _, le_refl _, le_refl _, Counter.get_le_inc _ _ _,
      le_refl _, le_refl _, le_refl _, le_refl _, le_refl _, le_refl _⟩
  · intro ty u ls
    exact ⟨le_refl _, le_refl _, le_refl _, le_refl _, le_refl _, le_refl _,
      le_refl _, le_refl _, le_refl _, le_refl _, le_refl _, le_refl _,
      le_refl _, le_refl _, le_refl _, Counter.get_le_inc _ _ _, le_refl _⟩
  · intro ep uid u ls
    exact ⟨le_refl _, le_refl _, le_refl _, le_refl _, le_refl _, le_refl _,
      le_refl _, le_refl _, le_refl _, le_refl _, le_refl _, le_refl _,
      le_refl _, le_refl _, le_refl _, le_refl _, Counter.get_le_inc _ _ _⟩
  · intro u ls
    exact ⟨le_refl _, le_refl _, le_refl _, le_refl _, le_refl _, le_refl _,
      le_refl _, le_refl _, le_refl _, le_refl _, le_refl _, le_refl _,
      le_refl _, le_refl _, le_refl _, le_refl _, le_refl _⟩
